import Mathlib

/-!
Shallow embedding of the configuration-resolution and resource-indexing
subsystem of the `py-app-template` repository:

* `src/core/util/validator.py`      (`ConfigValidator`)
* `src/core/config/environment_setup.py` (`EnvironmentSetup`)
* `src/core/config/configuration.py`     (`_SafeConfig`)
* `src/core/util/resources.py`      (`Resources`)

The filesystem is modelled as a record of the process working directory, the
user home directory, and the sets of existing directories and files (stored as
normalized absolute path strings).  POSIX path manipulation (`os.path.join`,
`os.path.abspath`, `os.path.normpath`, `pathlib` name/suffix/`str` round-trip,
`expanduser`) is embedded as pure string functions; symbolic links are not
modelled, so `Path.resolve` is embedded as expanduser followed by textual
normalization.  Python string built-ins used by the source (`lower`, `upper`,
`isupper`, `strip`, `int(...)` parsing, substring membership) are embedded as
executable helpers over the character list of a string.
-/

/-! ### Python string built-ins -/

/-- Boolean test that `pre` is a leading run of `s` (character lists). -/
def leadsWith : List Char → List Char → Bool
  | [], _ => true
  | _ :: _, [] => false
  | a :: as, b :: bs => if a = b then leadsWith as bs else false

/-- Python `needle in haystack` substring membership on character lists. -/
def containsSub : List Char → List Char → Bool
  | [], n => n.isEmpty
  | c :: t, n => leadsWith n (c :: t) || containsSub t n

/-- Python `str.startswith`. -/
def strStartsWith (s pre : String) : Bool := leadsWith pre.data s.data

/-- Python `str.endswith`. -/
def strEndsWith (s suf : String) : Bool := leadsWith suf.data.reverse s.data.reverse

/-- Python `str.lower` (ASCII model). -/
def pyLower (s : String) : String := ⟨s.data.map Char.toLower⟩

/-- Python `str.upper` (ASCII model). -/
def pyUpper (s : String) : String := ⟨s.data.map Char.toUpper⟩

/-- Python `str.isupper` (ASCII model): at least one cased character and no
lowercase character. -/
def pyIsUpper (s : String) : Bool :=
  s.data.any (fun c => c.isAlpha) && s.data.all (fun c => !c.isAlpha || c.isUpper)

/-- ASCII whitespace stripped by Python `str.strip()`. -/
def isPySpace (c : Char) : Bool :=
  c = ' ' || c = '\t' || c = '\n' || c = '\r'

/-- Python `str.strip()`. -/
def pyStrip (s : String) : String :=
  ⟨((s.data.dropWhile isPySpace).reverse.dropWhile isPySpace).reverse⟩

/-- Numeric value of a digit run (underscores already removed). -/
def digitsVal (cs : List Char) : Nat :=
  cs.foldl (fun a c => a * 10 + (c.toNat - 48)) 0

/-- True when no two consecutive underscores occur. -/
def noDoubleUnderscore : List Char → Bool
  | '_' :: '_' :: _ => false
  | _ :: t => noDoubleUnderscore t
  | [] => true

/-- Well-formedness of the digit part accepted by Python `int(str)`:
nonempty, first and last characters are digits, every character is a digit or
an underscore, and underscores never repeat. -/
def pyDigitsOk (cs : List Char) : Bool :=
  match cs with
  | [] => false
  | first :: _ =>
    first.isDigit && ((cs.getLast?.map Char.isDigit).getD false) &&
      cs.all (fun c => c.isDigit || c = '_') && noDoubleUnderscore cs

/-- Python `int(str)`: optional surrounding whitespace, optional sign, decimal
digits with single interior underscores. -/
def pyIntOfString (s : String) : Option Int :=
  let t := (pyStrip s).data
  let signDigits : Int × List Char :=
    match t with
    | '-' :: rest => (-1, rest)
    | '+' :: rest => (1, rest)
    | _ => (1, t)
  if pyDigitsOk signDigits.2 then
    some (signDigits.1 * (digitsVal (signDigits.2.filter (fun c => !(c = '_'))) : Int))
  else none

/-! ### POSIX path model -/

/-- A POSIX path is absolute when it starts with a slash. -/
def isAbs (p : String) : Bool :=
  match p.data with
  | c :: _ => if c = '/' then true else false
  | [] => false

/-- Split a character list at a separator character. -/
def splitCharsAux (sep : Char) : List Char → List Char → List (List Char)
  | [], acc => [acc.reverse]
  | c :: t, acc =>
    if c = sep then acc.reverse :: splitCharsAux sep t [] else splitCharsAux sep t (c :: acc)

/-- Split a string at a separator character. -/
def splitStr (sep : Char) (s : String) : List String :=
  (splitCharsAux sep s.data []).map (fun l => ⟨l⟩)

/-- Join strings with a separator. -/
def joinSep (sep : String) : List String → String
  | [] => ""
  | [x] => x
  | x :: y :: xs => x ++ sep ++ joinSep sep (y :: xs)

/-- Nonempty `/`-separated components of a path (keeps `.` and `..`). -/
def splitParts (p : String) : List String :=
  (splitStr '/' p).filter (fun s => !(s = ""))

/-- Component normalization of `os.path.normpath`: drop `.`, collapse `..`
against a previous component (for absolute paths also at the root). -/
def normSegs : List String → Bool → List String → List String
  | [], _, acc => acc.reverse
  | s :: rest, abs, acc =>
    if s = "." then normSegs rest abs acc
    else if s = ".." then
      match acc with
      | [] => if abs then normSegs rest abs [] else normSegs rest abs [".."]
      | top :: t =>
        if top = ".." then normSegs rest abs (s :: top :: t) else normSegs rest abs t
    else normSegs rest abs (s :: acc)

/-- Python `os.path.normpath` (POSIX). -/
def pyNormpath (p : String) : String :=
  let a := isAbs p
  let segs := normSegs (splitParts p) a []
  if a then "/" ++ joinSep "/" segs
  else if segs = [] then "." else joinSep "/" segs

/-- Python `os.path.join` for two components (POSIX). -/
def pyJoin (a b : String) : String :=
  if isAbs b then b
  else if a = "" || strEndsWith a "/" then a ++ b
  else a ++ "/" ++ b

/-- Python `os.path.abspath` (POSIX): join with the working directory and
normalize. -/
def pyAbspath (cwd p : String) : String := pyNormpath (pyJoin cwd p)

/-- Python `os.path.expanduser` restricted to the `~` / `~/...` forms used by
the source (a normalized home directory is assumed). -/
def pyExpanduser (home p : String) : String :=
  if p = "~" then home
  else if strStartsWith p "~/" then home ++ ⟨p.data.drop 1⟩
  else p

/-- Python `Path(p).resolve()` without symbolic links: absolutize against the
working directory and normalize textually. -/
def pyResolve (cwd p : String) : String :=
  pyNormpath (if isAbs p then p else pyJoin cwd p)

/-- Components kept by a `pathlib.PurePosixPath`: empty strings and `.` are
dropped, `..` is kept. -/
def pyParts (p : String) : List String :=
  (splitStr '/' p).filter (fun s => !(s = "") && !(s = "."))

/-- Python `str(Path(p))`: the string form of the `pathlib` parse of `p`. -/
def pyPathStr (p : String) : String :=
  let segs := pyParts p
  if isAbs p then "/" ++ joinSep "/" segs
  else if segs = [] then "." else joinSep "/" segs

/-- Python `Path(p).name`: the final component. -/
def pyName (p : String) : String := ((pyParts p).getLast?).getD ""

/-- Index of the last dot of a character list, if any. -/
def lastDotIdx : List Char → Nat → Option Nat → Option Nat
  | [], _, best => best
  | c :: t, i, best => lastDotIdx t (i + 1) (if c = '.' then some i else best)

/-- Python `Path(p).suffix`: the final extension of the final component; empty
when the last dot is leading or trailing. -/
def pySuffix (p : String) : String :=
  let n := (pyName p).data
  match lastDotIdx n 0 none with
  | some i => if 0 < i && i + 1 < n.length then ⟨n.drop i⟩ else ""
  | none => ""

/-! ### Filesystem model -/

/-- Boolean membership of a string in a list of strings. -/
def strListHas : List String → String → Bool
  | [], _ => false
  | a :: t, x => if a = x then true else strListHas t x

/-- The filesystem: working directory, home directory, and the existing
directories and files as normalized absolute path strings. -/
structure FS where
  cwd : String
  home : String
  dirs : List String
  files : List String
deriving DecidableEq, Repr

/-- Existence of a canonical absolute path in the filesystem. -/
def FS.rawExists (fs : FS) (p : String) : Bool :=
  strListHas fs.dirs p || strListHas fs.files p

/-- Python `os.path.exists` / `Path.exists`: absolutize against the working
directory, then look up. -/
def FS.existsPath (fs : FS) (p : String) : Bool :=
  fs.rawExists (pyAbspath fs.cwd p)

/-- Strict ancestors of an absolute path, for `os.makedirs(parents=True)`. -/
def pathAncestors (p : String) : List String :=
  let segs := splitParts p
  (List.range segs.length).filterMap
    (fun i => if i = 0 then none else some ("/" ++ joinSep "/" (segs.take i)))

/-- Python `os.makedirs(p, exist_ok=True)`: record the absolutized path and
all of its ancestors as directories. -/
def FS.mkdirs (fs : FS) (p : String) : FS :=
  let a := pyAbspath fs.cwd p
  { fs with dirs := a :: (pathAncestors a ++ fs.dirs) }

/-! ### Typed configuration values and the enumerations
(`src/core/enums/log_level.py`, `src/core/enums/app_themes.py`) -/

/-- The `LogLevel` enum. -/
inductive PyLogLevel
  | DEBUG | INFO | WARNING | ERROR | CRITICAL
deriving DecidableEq, Repr

/-- The `AppTheme` enum. -/
inductive PyAppTheme
  | LIGHT | DARK | AUTO
deriving DecidableEq, Repr

/-- A Python value as stored in the resolved configuration mapping. -/
inductive Value
  | bool (b : Bool)
  | int (n : Int)
  | str (s : String)
  | level (l : PyLogLevel)
  | theme (t : PyAppTheme)
deriving DecidableEq, Repr

/-! ### `ConfigValidator` (src/core/util/validator.py) -/

/-- Truthy boolean tokens of `ConfigValidator.ensure_boolean`. -/
def trueTokens : List String := ["true", "yes", "1", "on"]

/-- Falsy boolean tokens of `ConfigValidator.ensure_boolean`. -/
def falseTokens : List String := ["false", "no", "0", "off"]

/-- `ConfigValidator.ensure_boolean`, specialized to the string inputs the
overlay loader passes it. -/
def ensure_boolean (value : String) (fieldName : String) : Except String Bool :=
  if strListHas trueTokens (pyLower value) then .ok true
  else if strListHas falseTokens (pyLower value) then .ok false
  else .error ("Invalid " ++ fieldName ++ ": " ++ value)

/-- `ConfigValidator.ensure_positive_int`, specialized to string inputs. -/
def ensure_positive_int (value : String) (fieldName : String) : Except String Int :=
  match pyIntOfString value with
  | some n => if n > 0 then .ok n else .error ("Invalid " ++ fieldName ++ ": " ++ value)
  | none => .error ("Invalid " ++ fieldName ++ ": " ++ value)

/-- `ConfigValidator.ensure_string` on a string input (`str(value)`). -/
def ensure_string (value : String) : String := value

/-- `ConfigValidator.parse_log_level`. -/
def parse_log_level (s : String) : Except String PyLogLevel :=
  if pyUpper s = "DEBUG" then .ok .DEBUG
  else if pyUpper s = "INFO" then .ok .INFO
  else if pyUpper s = "WARNING" then .ok .WARNING
  else if pyUpper s = "ERROR" then .ok .ERROR
  else if pyUpper s = "CRITICAL" then .ok .CRITICAL
  else .error ("Invalid log level: " ++ s)

/-- `ConfigValidator.parse_theme_mode`. -/
def parse_theme_mode (s : String) : Except String PyAppTheme :=
  if pyUpper s = "LIGHT" then .ok .LIGHT
  else if pyUpper s = "DARK" then .ok .DARK
  else if pyUpper s = "AUTO" then .ok .AUTO
  else .error ("Invalid theme mode: " ++ s)

/-- `ConfigValidator.validate_file_path`. -/
def validate_file_path (fs : FS) (path : String) (must_exist : Bool) : Except String String :=
  let po := pyPathStr path
  if must_exist && !fs.existsPath po then .error ("File not found: " ++ path)
  else .ok po

/-- `ConfigValidator.validate_directory_path`: returns the path string and the
filesystem after an optional directory creation. -/
def validate_directory_path (fs : FS) (path : String) (create_if_missing : Bool) :
    String × FS :=
  let po := pyPathStr path
  if create_if_missing && !fs.existsPath po then (po, fs.mkdirs po) else (po, fs)

instance {ε α : Type} [DecidableEq ε] [DecidableEq α] : DecidableEq (Except ε α) := fun
  | .error a, .error b =>
    if h : a = b then isTrue (h ▸ rfl) else isFalse (fun c => h (Except.error.inj c))
  | .error _, .ok _ => isFalse (fun c => Except.noConfusion c)
  | .ok _, .error _ => isFalse (fun c => Except.noConfusion c)
  | .ok a, .ok b =>
    if h : a = b then isTrue (h ▸ rfl) else isFalse (fun c => h (Except.ok.inj c))

/-! ### `EnvironmentSetup._auto_cast` (src/core/config/environment_setup.py) -/

/-- The `PATH`/`DIR`/`FILE` key-substring heuristic of `_auto_cast`. -/
def pathKeySub (key : String) : Bool :=
  containsSub key.data "PATH".data || containsSub key.data "DIR".data ||
    containsSub key.data "FILE".data

/-- Steps 5 and 6 of `_auto_cast` (path handling then string fallback),
reached when the boolean and positive-integer parses have both failed.  The
source tests `if p.suffix:` for the file branch; here the equivalent empty
test selects the directory branch first. -/
def castTail (fs : FS) (key value : String) : Except String (Value × FS) :=
  if pathKeySub key then
    let p := pyResolve fs.cwd (pyExpanduser fs.home value)
    if pySuffix p = "" then
      let r := validate_directory_path fs p true
      .ok (Value.str r.1, r.2)
    else
      (validate_file_path fs p false).map (fun s => (Value.str s, fs))
  else .ok (Value.str (ensure_string value), fs)

/-- `EnvironmentSetup._auto_cast`: special keys, then boolean, then positive
integer, then path handling, then string fallback. -/
def auto_cast (fs : FS) (key value : String) : Except String (Value × FS) :=
  if key = "LOG_LEVEL" then (parse_log_level value).map (fun l => (Value.level l, fs))
  else if key = "THEME_MODE" then (parse_theme_mode value).map (fun t => (Value.theme t, fs))
  else
    match ensure_boolean value key with
    | .ok b => .ok (Value.bool b, fs)
    | .error _ =>
      match ensure_positive_int value key with
      | .ok n => .ok (Value.int n, fs)
      | .error _ => castTail fs key value

example : auto_cast ⟨"/w", "/root", [], []⟩ "X" "On" =
    .ok (Value.bool true, ⟨"/w", "/root", [], []⟩) := by decide

example : auto_cast ⟨"/w", "/root", [], []⟩ "X" "42" =
    .ok (Value.int 42, ⟨"/w", "/root", [], []⟩) := by decide

example : auto_cast ⟨"/w", "/root", [], []⟩ "LOG_DIR" "/tmp/x" =
    .ok (Value.str "/tmp/x",
      ⟨"/w", "/root", ["/tmp/x", "/tmp"], []⟩) := by decide

example : auto_cast ⟨"/w", "/root", [], []⟩ "LOG_FILE" "/tmp/x.log" =
    .ok (Value.str "/tmp/x.log", ⟨"/w", "/root", [], []⟩) := by decide

example : auto_cast ⟨"/w", "/root", [], []⟩ "LOG_LEVEL" "debug" =
    .ok (Value.level .DEBUG, ⟨"/w", "/root", [], []⟩) := by decide

example : (auto_cast ⟨"/w", "/root", [], []⟩ "LOG_LEVEL" "bogus").isOk = false := by decide

/-! ### Python `dict` model: insertion-ordered association lists -/

/-- First value stored under a key in an association list. -/
def alookup {β : Type} : List (String × β) → String → Option β
  | [], _ => none
  | (a, v) :: t, k => if a = k then some v else alookup t k

/-- Python `d[k] = v`: replace in place when the key exists, append
otherwise. -/
def dinsert {β : Type} : List (String × β) → String → β → List (String × β)
  | [], k, v => [(k, v)]
  | (a, w) :: t, k, v => if a = k then (a, v) :: t else (a, w) :: dinsert t k v

/-! ### `EnvironmentSetup.load` (src/core/config/environment_setup.py) -/

/-- Loaded TOML data: sections mapping to key/value tables. -/
abbrev Toml := List (String × List (String × Value))

/-- The flattening loop of `EnvironmentSetup.load`:
`config[f"{section.upper()}_{key.upper()}"] = value` over all sections. -/
def flattenToml (t : Toml) : List (String × Value) :=
  t.foldl
    (fun cfg sv =>
      sv.2.foldl (fun cfg2 kv => dinsert cfg2 (pyUpper sv.1 ++ "_" ++ pyUpper kv.1) kv.2) cfg)
    []

/-- The state of an `EnvironmentSetup` instance at `load` time: the parsed
TOML data (or `none` when the file was absent), the resolved TOML path used in
the error message, whether the `.env` overlay was loaded, the process
environment, and the development-mode flag. -/
structure Setup where
  toml_data : Option Toml
  toml_path : String
  env_loaded : Bool
  environ : List (String × String)
  is_dev : Bool
deriving DecidableEq, Repr

/-- An observability event emitted through `Logger`. -/
inductive LogEvent
  | errorEv (msg : String)
  | warnEv (msg : String)
  | debugEv (msg : String)
deriving DecidableEq, Repr

/-- Result of `EnvironmentSetup.load`: the configuration mapping, the
filesystem after any directory creations, and the emitted log events. -/
structure LoadResult where
  config : List (String × Value)
  fs : FS
  logs : List LogEvent
deriving DecidableEq, Repr

/-- One iteration of the overlay-merge loop of `load`: process an environment
entry when its name is fully upper-case, falling back to the raw string when
`_auto_cast` raises. -/
def envStep (acc : List (String × Value) × FS) (kv : String × String) :
    List (String × Value) × FS :=
  if pyIsUpper kv.1 then
    match auto_cast acc.2 kv.1 kv.2 with
    | .ok r => (dinsert acc.1 kv.1 r.1, r.2)
    | .error _ => (dinsert acc.1 kv.1 (Value.str kv.2), acc.2)
  else acc

/-- `EnvironmentSetup.load`: flatten the TOML sections, merge the upper-case
process environment when the overlay was loaded, then append the
`IS_DEV_MODE` meta-flag.  When no TOML data was loaded, an error is reported
and the accumulator is returned as-is (empty). -/
def load (s : Setup) (fs : FS) : LoadResult :=
  match s.toml_data with
  | none =>
    { config := [], fs := fs,
      logs := [LogEvent.errorEv ("Failed to load TOML configuration from " ++ s.toml_path)] }
  | some t =>
    let base := flattenToml t
    let merged := if s.env_loaded then s.environ.foldl envStep (base, fs) else (base, fs)
    { config := dinsert merged.1 "IS_DEV_MODE" (Value.bool s.is_dev), fs := merged.2,
      logs := [] }

/-- The value retained in the configuration for one overlay entry: the cast
value on success, the raw string on failure. -/
def castOrRaw (fs : FS) (k v : String) : Value :=
  match auto_cast fs k v with
  | .ok r => r.1
  | .error _ => Value.str v

/-! ### `_SafeConfig.get` (src/core/config/configuration.py) -/

/-- The outcome of one instrumented configuration read. -/
inductive AccessOutcome
  | Hit | DefaultedMiss | UnrecoverableMiss
deriving DecidableEq, Repr

/-- Logging severities, with their numeric Python levels. -/
inductive Severity
  | debugSev | warningSev | errorSev
deriving DecidableEq, Repr

/-- Numeric level of a severity (Python logging convention). -/
def severityLevel : Severity → Nat
  | .debugSev => 10
  | .warningSev => 30
  | .errorSev => 40

/-- Severity at which each access outcome is reported by `_SafeConfig.get`:
hits at debug, defaulted misses at warning, unrecoverable misses at error. -/
def outcomeSeverity : AccessOutcome → Severity
  | .Hit => .debugSev
  | .DefaultedMiss => .warningSev
  | .UnrecoverableMiss => .errorSev

/-- `_SafeConfig.get`: read through to the mapping with an optional default,
and classify the access.  `default = none` models an omitted default. -/
def safeGet (m : List (String × Value)) (key : String) (default : Option Value) :
    Option Value × AccessOutcome :=
  let value := match alookup m key with | some v => some v | none => default
  match alookup m key with
  | some _ => (value, .Hit)
  | none =>
    match default with
    | none => (value, .UnrecoverableMiss)
    | some _ => (value, .DefaultedMiss)

/-! ### `Resources` (src/core/util/resources.py) -/

/-- Python `str(Path(a) / b)`. -/
def pathDiv (a b : String) : String := pyPathStr (pyJoin a b)

/-- `Resources._get_base_path`: the packaged bundle root plus `resources` when
bundled, the working directory plus `resources` otherwise. -/
def getBasePath (isBundled : Bool) (meipass cwd : String) : String :=
  pathDiv (if isBundled then meipass else cwd) "resources"

/-- `Resources._list_files`: every indexed file under a directory (empty when
the directory does not exist). -/
def listFiles (fs : FS) (dir : String) : List String :=
  if fs.existsPath dir then
    fs.files.filter (fun f => strStartsWith f (pyAbspath fs.cwd dir ++ "/"))
  else []

/-- State built by `Resources.initialize`: the per-category directory
attributes, the per-category file indexes, and the filesystem after any
directory creations. -/
structure ResState where
  attrs : List (String × String)
  resources : List (String × List String)
  fs : FS
deriving DecidableEq, Repr

/-- One iteration of the `Resources.initialize` loop over the normalized
category configuration. -/
def initStep (isBundled : Bool) (basePath : String) (st : ResState) (kv : String × String) :
    ResState :=
  if kv.1 = "base" then { st with attrs := dinsert st.attrs kv.1 basePath }
  else
    let abs_path :=
      if isBundled then pathDiv basePath kv.1
      else if isAbs kv.2 then pyPathStr kv.2
      else pathDiv basePath (pyName kv.2)
    let fs2 :=
      if isBundled then st.fs
      else if st.fs.existsPath abs_path then st.fs else st.fs.mkdirs abs_path
    { attrs := dinsert st.attrs kv.1 abs_path,
      resources := dinsert st.resources kv.1 (listFiles fs2 abs_path),
      fs := fs2 }

/-- `Resources.initialize`, given the normalized category configuration
(category name, declared path) as held in `Resources._cfg`. -/
def initResources (isBundled : Bool) (meipass : String) (cfg : List (String × String))
    (fs : FS) : ResState :=
  cfg.foldl (initStep isBundled (getBasePath isBundled meipass fs.cwd))
    { attrs := [], resources := [], fs := fs }

/-- The dynamically created `get_in_<category>` lookup of
`Resources._create_get_method`: try the argument itself, then the argument
joined to the category directory, then (bundled only) the argument joined to
the packaged resources base; raise `FileNotFoundError` otherwise. -/
def get_in (fs : FS) (isBundled : Bool) (meipass : String) (basePath : String)
    (path : String) : Except String String :=
  if fs.existsPath path then .ok (pyAbspath fs.cwd path)
  else if fs.existsPath (pyJoin basePath path) then .ok (pyAbspath fs.cwd (pyJoin basePath path))
  else if isBundled && fs.existsPath (pyJoin (getBasePath true meipass fs.cwd) path) then
    .ok (pyAbspath fs.cwd (pyJoin (getBasePath true meipass fs.cwd) path))
  else .error ("Resource not found: " ++ path)

/-! ### `EnvironmentSetup._configure_logging_from_toml` and `__init__` -/

/-- Python truthiness of a configuration value. -/
def truthy : Value → Bool
  | .bool b => b
  | .int n => if n = 0 then false else true
  | .str s => if s = "" then false else true
  | .level _ => true
  | .theme _ => true

/-- Python `toml_data.get(name, {})`. -/
def tomlGetSection (t : Toml) (name : String) : List (String × Value) :=
  (alookup t name).getD []

/-- `EnvironmentSetup._configure_logging_from_toml`: when persistence logging
is enabled by the TOML data, inject the `PERSISTENCE_LOGGING` environment
variable and then assign `app.name` to `PERSISTENCE_LOGGING_TARGET_NAME`;
`os.environ` only accepts strings, so a missing or non-string `app.name`
raises `TypeError` (modelled as `Except.error`). -/
def configure_logging_from_toml (toml_data : Option Toml) (env : List (String × String)) :
    Except String (List (String × String)) :=
  match toml_data with
  | some t =>
    let pl := (alookup (tomlGetSection t "logging") "persistence_logging").getD (Value.bool false)
    if truthy pl then
      let env1 := dinsert env "PERSISTENCE_LOGGING" "True"
      match alookup (tomlGetSection t "app") "name" with
      | some (Value.str s) => .ok (dinsert env1 "PERSISTENCE_LOGGING_TARGET_NAME" s)
      | _ => .error "TypeError: str expected, not NoneType"
    else .ok env
  | none => .ok (dinsert env "PERSISTENCE_LOGGING" "True")

/-- The logging-configuration effect of `EnvironmentSetup.__init__` on the
process environment: development mode configures from `.env`, packaged mode
runs `_configure_logging_from_toml` (whose `TypeError` aborts startup).  The
`.env` file merge of development mode is not itself modelled. -/
def initEnvSetup (is_dev : Bool) (toml_data : Option Toml) (env : List (String × String)) :
    Except String (List (String × String)) :=
  if is_dev then .ok env
  else configure_logging_from_toml toml_data env

/-! ### Dictionary lemmas -/

theorem alookup_dinsert_self {β : Type} (m : List (String × β)) (k : String) (v : β) :
    alookup (dinsert m k v) k = some v := by
  induction m with
  | nil => simp [dinsert, alookup]
  | cons h t ih =>
    obtain ⟨a, w⟩ := h
    by_cases hak : a = k
    · simp [dinsert, alookup, hak]
    · simp [dinsert, alookup, hak, ih]

theorem alookup_dinsert_ne {β : Type} (m : List (String × β)) (k kq : String) (v : β)
    (h : kq ≠ k) : alookup (dinsert m k v) kq = alookup m kq := by
  induction m with
  | nil =>
    simp only [dinsert, alookup]
    rw [if_neg (fun hc : k = kq => h hc.symm)]
  | cons hd t ih =>
    obtain ⟨a, w⟩ := hd
    by_cases hak : a = k
    · subst hak
      simp only [dinsert, if_pos rfl, alookup]
      rw [if_neg (fun hc : a = kq => h hc.symm), if_neg (fun hc : a = kq => h hc.symm)]
    · simp only [dinsert, if_neg hak]
      by_cases haq : a = kq
      · simp [alookup, haq]
      · simp [alookup, haq, ih]

/-! ### Path absoluteness lemmas -/

theorem isAbs_append (a b : String) (h : isAbs a = true) : isAbs (a ++ b) = true := by
  unfold isAbs at h ⊢
  rw [String.data_append]
  cases hd : a.data with
  | nil => rw [hd] at h; simp at h
  | cons c t =>
    rw [hd] at h
    simp only [List.cons_append]
    exact h

theorem isAbs_slash_append (x : String) : isAbs ("/" ++ x) = true :=
  isAbs_append "/" x rfl

theorem isAbs_pyNormpath (p : String) (h : isAbs p = true) :
    isAbs (pyNormpath p) = true := by
  simp only [pyNormpath, h, if_true]
  exact isAbs_slash_append _

theorem isAbs_pyPathStr (p : String) (h : isAbs p = true) :
    isAbs (pyPathStr p) = true := by
  simp only [pyPathStr, h, if_true]
  exact isAbs_slash_append _

theorem isAbs_pyJoin (a b : String) (h : isAbs a = true) :
    isAbs (pyJoin a b) = true := by
  unfold pyJoin
  by_cases hb : isAbs b = true
  · simp [hb]
  · simp only [hb, if_false, Bool.false_eq_true]
    by_cases he : (a = "" || strEndsWith a "/") = true
    · simp only [he, if_pos rfl]
      exact isAbs_append a b h
    · simp only [he]
      simp only [Bool.false_eq_true, if_false]
      exact isAbs_append (a ++ "/") b (isAbs_append a "/" h)

theorem isAbs_pyResolve (cwd p : String) (h : isAbs cwd = true) :
    isAbs (pyResolve cwd p) = true := by
  unfold pyResolve
  by_cases hp : isAbs p = true
  · simp only [hp, if_pos rfl]
    exact isAbs_pyNormpath p hp
  · simp only [hp]
    simp only [Bool.false_eq_true, if_false]
    exact isAbs_pyNormpath _ (isAbs_pyJoin cwd p h)

/-! ### Filesystem-extension lemmas -/

/-- One filesystem extends another: same working and home directory, same
files, at least the same directories. -/
def FSext (fs fsq : FS) : Prop :=
  fsq.cwd = fs.cwd ∧ fsq.home = fs.home ∧ fsq.files = fs.files ∧
    ∀ d, strListHas fs.dirs d = true → strListHas fsq.dirs d = true

theorem FSext_refl (fs : FS) : FSext fs fs := ⟨rfl, rfl, rfl, fun _ h => h⟩

theorem FSext_trans {a b c : FS} (h1 : FSext a b) (h2 : FSext b c) : FSext a c :=
  ⟨h2.1.trans h1.1, h2.2.1.trans h1.2.1, h2.2.2.1.trans h1.2.2.1,
    fun d hd => h2.2.2.2 d (h1.2.2.2 d hd)⟩

theorem strListHas_cons (y : String) (l : List String) (x : String)
    (h : strListHas l x = true) : strListHas (y :: l) x = true := by
  by_cases hy : y = x
  · simp [strListHas, hy]
  · simp [strListHas, hy, h]

theorem strListHas_append_right (l1 l2 : List String) (x : String)
    (h : strListHas l2 x = true) : strListHas (l1 ++ l2) x = true := by
  induction l1 with
  | nil => simpa using h
  | cons y t ih => exact strListHas_cons y (t ++ l2) x ih

theorem FSext_mkdirs (fs : FS) (q : String) : FSext fs (fs.mkdirs q) :=
  ⟨rfl, rfl, rfl, fun d hd =>
    strListHas_cons _ _ _ (strListHas_append_right _ _ _ hd)⟩

/-! ### Structural lemmas about `_auto_cast` -/

theorem validate_file_path_nomust (fs : FS) (p : String) :
    validate_file_path fs p false = .ok (pyPathStr p) := by
  simp [validate_file_path]

theorem validate_directory_path_fst (fs : FS) (p : String) (c : Bool) :
    (validate_directory_path fs p c).1 = pyPathStr p := by
  simp only [validate_directory_path]
  split <;> rfl

theorem castTail_isOk (fs : FS) (k v : String) : (castTail fs k v).isOk = true := by
  simp only [castTail]
  by_cases hp : pathKeySub k = true
  · rw [if_pos hp]
    by_cases hs : pySuffix (pyResolve fs.cwd (pyExpanduser fs.home v)) = ""
    · rw [if_pos hs]
      simp [Except.isOk, Except.toBool]
    · rw [if_neg hs, validate_file_path_nomust]
      simp [Except.map, Except.isOk, Except.toBool]
  · rw [if_neg hp]
    simp [Except.isOk, Except.toBool]

theorem castTail_fsext (fs : FS) (k v : String) (r : Value × FS)
    (h : castTail fs k v = .ok r) : FSext fs r.2 := by
  simp only [castTail] at h
  by_cases hp : pathKeySub k = true
  · rw [if_pos hp] at h
    by_cases hs : pySuffix (pyResolve fs.cwd (pyExpanduser fs.home v)) = ""
    · rw [if_pos hs] at h
      have h2 : r = (Value.str
          (validate_directory_path fs (pyResolve fs.cwd (pyExpanduser fs.home v)) true).1,
          (validate_directory_path fs (pyResolve fs.cwd (pyExpanduser fs.home v)) true).2) := by
        cases h; rfl
      rw [h2]
      simp only [validate_directory_path]
      split
      · exact FSext_mkdirs fs _
      · exact FSext_refl fs
    · rw [if_neg hs, validate_file_path_nomust] at h
      simp only [Except.map] at h
      cases h
      exact FSext_refl fs
  · rw [if_neg hp] at h
    cases h
    exact FSext_refl fs

theorem auto_cast_ok_fsext (fs : FS) (k v : String) (r : Value × FS)
    (h : auto_cast fs k v = .ok r) : FSext fs r.2 := by
  unfold auto_cast at h
  by_cases h1 : k = "LOG_LEVEL"
  · simp only [h1, if_pos rfl] at h
    cases hl : parse_log_level v with
    | ok l => rw [hl] at h; simp only [Except.map] at h; cases h; exact FSext_refl fs
    | error e => rw [hl] at h; simp [Except.map] at h
  · simp only [if_neg h1] at h
    by_cases h2 : k = "THEME_MODE"
    · simp only [h2, if_pos rfl] at h
      cases hl : parse_theme_mode v with
      | ok l => rw [hl] at h; simp only [Except.map] at h; cases h; exact FSext_refl fs
      | error e => rw [hl] at h; simp [Except.map] at h
    · simp only [if_neg h2] at h
      cases hb : ensure_boolean v k with
      | ok b => rw [hb] at h; simp only at h; cases h; exact FSext_refl fs
      | error eb =>
        rw [hb] at h
        cases hi : ensure_positive_int v k with
        | ok n => rw [hi] at h; simp only at h; cases h; exact FSext_refl fs
        | error ei =>
          rw [hi] at h
          exact castTail_fsext fs k v r h

theorem auto_cast_error_key (fs : FS) (k v e : String)
    (h : auto_cast fs k v = .error e) : k = "LOG_LEVEL" ∨ k = "THEME_MODE" := by
  by_cases h1 : k = "LOG_LEVEL"
  · exact Or.inl h1
  by_cases h2 : k = "THEME_MODE"
  · exact Or.inr h2
  exfalso
  unfold auto_cast at h
  simp only [if_neg h1, if_neg h2] at h
  cases hb : ensure_boolean v k with
  | ok b => rw [hb] at h; simp at h
  | error eb =>
    rw [hb] at h
    cases hi : ensure_positive_int v k with
    | ok n => rw [hi] at h; simp at h
    | error ei =>
      rw [hi] at h
      simp only at h
      have hok := castTail_isOk fs k v
      rw [h] at hok
      simp [Except.isOk, Except.toBool] at hok

theorem castTail_fst (fs : FS) (k v : String) :
    Except.map Prod.fst (castTail fs k v) =
      .ok (if pathKeySub k = true then
            Value.str (pyPathStr (pyResolve fs.cwd (pyExpanduser fs.home v)))
          else Value.str (ensure_string v)) := by
  simp only [castTail]
  by_cases hp : pathKeySub k = true
  · rw [if_pos hp, if_pos hp]
    by_cases hs : pySuffix (pyResolve fs.cwd (pyExpanduser fs.home v)) = ""
    · rw [if_pos hs]
      simp only [Except.map]
      rw [validate_directory_path_fst]
    · rw [if_neg hs, validate_file_path_nomust]
      simp only [Except.map]
  · rw [if_neg hp, if_neg hp]
    simp [Except.map]

theorem auto_cast_fst_congr (fs1 fs2 : FS) (k v : String)
    (hc : fs1.cwd = fs2.cwd) (hh : fs1.home = fs2.home) :
    Except.map Prod.fst (auto_cast fs1 k v) = Except.map Prod.fst (auto_cast fs2 k v) := by
  unfold auto_cast
  by_cases h1 : k = "LOG_LEVEL"
  · simp only [h1, if_pos rfl]
    cases parse_log_level v <;> simp [Except.map]
  · simp only [if_neg h1]
    by_cases h2 : k = "THEME_MODE"
    · simp only [h2, if_pos rfl]
      cases parse_theme_mode v <;> simp [Except.map]
    · simp only [if_neg h2]
      cases ensure_boolean v k with
      | ok b => simp [Except.map]
      | error eb =>
        cases ensure_positive_int v k with
        | ok n => simp [Except.map]
        | error ei =>
          rw [castTail_fst, castTail_fst, hc, hh]

theorem castOrRaw_congr (fs1 fs2 : FS) (k v : String)
    (hc : fs1.cwd = fs2.cwd) (hh : fs1.home = fs2.home) :
    castOrRaw fs1 k v = castOrRaw fs2 k v := by
  have h := auto_cast_fst_congr fs1 fs2 k v hc hh
  unfold castOrRaw
  cases h1 : auto_cast fs1 k v with
  | ok r =>
    cases h2 : auto_cast fs2 k v with
    | ok r2 =>
      rw [h1, h2] at h
      simp only [Except.map, Except.ok.injEq] at h
      simp [h]
    | error e2 => rw [h1, h2] at h; simp [Except.map] at h
  | error e =>
    cases h2 : auto_cast fs2 k v with
    | ok r2 => rw [h1, h2] at h; simp [Except.map] at h
    | error e2 => simp

/-! ### Lemmas about the overlay-merge loop of `load` -/

theorem envStep_fst (b : List (String × Value)) (f : FS) (kv : String × String) :
    (envStep (b, f) kv).1 =
      if pyIsUpper kv.1 = true then dinsert b kv.1 (castOrRaw f kv.1 kv.2) else b := by
  simp only [envStep, castOrRaw]
  by_cases hu : pyIsUpper kv.1 = true
  · rw [if_pos hu, if_pos hu]
    cases h : auto_cast f kv.1 kv.2 <;> simp
  · rw [if_neg hu, if_neg hu]

theorem envStep_fsext (b : List (String × Value)) (f : FS) (kv : String × String) :
    FSext f (envStep (b, f) kv).2 := by
  simp only [envStep]
  by_cases hu : pyIsUpper kv.1 = true
  · rw [if_pos hu]
    cases h : auto_cast f kv.1 kv.2 with
    | ok r => simpa using auto_cast_ok_fsext f kv.1 kv.2 r h
    | error e => exact FSext_refl f
  · rw [if_neg hu]
    exact FSext_refl f

theorem envFold_fsext (e : List (String × String)) (acc : List (String × Value) × FS) :
    FSext acc.2 (e.foldl envStep acc).2 := by
  induction e generalizing acc with
  | nil => exact FSext_refl _
  | cons kv t ih =>
    simp only [List.foldl_cons]
    have h1 : FSext acc.2 (envStep acc kv).2 := by
      obtain ⟨b, f⟩ := acc
      exact envStep_fsext b f kv
    exact FSext_trans h1 (ih (envStep acc kv))

theorem envFold_lookup_not_mem (e : List (String × String))
    (acc : List (String × Value) × FS) (k : String) (h : ∀ p ∈ e, p.1 ≠ k) :
    alookup (e.foldl envStep acc).1 k = alookup acc.1 k := by
  induction e generalizing acc with
  | nil => rfl
  | cons kv t ih =>
    simp only [List.foldl_cons]
    rw [ih (envStep acc kv) (fun p hp => h p (List.mem_cons_of_mem kv hp))]
    obtain ⟨b, f⟩ := acc
    rw [envStep_fst]
    by_cases hu : pyIsUpper kv.1 = true
    · rw [if_pos hu]
      exact alookup_dinsert_ne b kv.1 k _ (Ne.symm (h kv (List.mem_cons_self kv t)))
    · rw [if_neg hu]

theorem envFold_lookup_mem (e : List (String × String)) (acc : List (String × Value) × FS)
    (k v : String) (hnd : (e.map Prod.fst).Nodup) (hmem : (k, v) ∈ e)
    (hu : pyIsUpper k = true) :
    alookup (e.foldl envStep acc).1 k = some (castOrRaw acc.2 k v) := by
  induction e generalizing acc with
  | nil => cases hmem
  | cons kv t ih =>
    simp only [List.foldl_cons]
    rw [List.map_cons] at hnd
    have hpair := List.nodup_cons.mp hnd
    rcases List.mem_cons.mp hmem with heq | hmemt
    · obtain rfl : kv = (k, v) := heq.symm
      have hk : ∀ p ∈ t, p.1 ≠ k := by
        intro p hp hpk
        have hmmem : p.1 ∈ t.map Prod.fst := List.mem_map_of_mem Prod.fst hp
        rw [hpk] at hmmem
        exact hpair.1 hmmem
      rw [envFold_lookup_not_mem t _ k hk]
      obtain ⟨b, f⟩ := acc
      rw [envStep_fst]
      rw [if_pos hu]
      exact alookup_dinsert_self b k _
    · have hnd2 : (t.map Prod.fst).Nodup := hpair.2
      have hmain := ih (envStep acc kv) hnd2 hmemt
      rw [hmain]
      have hext : FSext acc.2 (envStep acc kv).2 := by
        obtain ⟨b, f⟩ := acc
        exact envStep_fsext b f kv
      rw [castOrRaw_congr (envStep acc kv).2 acc.2 k v hext.1 hext.2.1]

theorem envFold_fst_congr (e : List (String × String)) (b : List (String × Value))
    (f1 f2 : FS) (hc : f1.cwd = f2.cwd) (hh : f1.home = f2.home) :
    (e.foldl envStep (b, f1)).1 = (e.foldl envStep (b, f2)).1 := by
  induction e generalizing b f1 f2 with
  | nil => rfl
  | cons kv t ih =>
    simp only [List.foldl_cons]
    have hb : (envStep (b, f1) kv).1 = (envStep (b, f2) kv).1 := by
      rw [envStep_fst, envStep_fst, castOrRaw_congr f1 f2 kv.1 kv.2 hc hh]
    have h1 := envStep_fsext b f1 kv
    have h2 := envStep_fsext b f2 kv
    have hcwd : (envStep (b, f1) kv).2.cwd = (envStep (b, f2) kv).2.cwd := by
      rw [h1.1, h2.1, hc]
    have hhome : (envStep (b, f1) kv).2.home = (envStep (b, f2) kv).2.home := by
      rw [h1.2.1, h2.2.1, hh]
    have hmain := ih (envStep (b, f1) kv).1 (envStep (b, f1) kv).2 (envStep (b, f2) kv).2
      hcwd hhome
    nth_rewrite 2 [hb] at hmain
    simpa only [Prod.mk.eta] using hmain

/-! ### Lemmas about `load` as a whole -/

theorem load_fsext (s : Setup) (fs : FS) : FSext fs (load s fs).fs := by
  cases ht : s.toml_data with
  | none => simp only [load, ht]; exact FSext_refl fs
  | some t =>
    simp only [load, ht]
    by_cases he : s.env_loaded = true
    · rw [if_pos he]
      exact envFold_fsext s.environ (flattenToml t, fs)
    · rw [if_neg he]
      exact FSext_refl fs

theorem load_config_fs_congr (s : Setup) (fs1 fs2 : FS)
    (hc : fs1.cwd = fs2.cwd) (hh : fs1.home = fs2.home) :
    (load s fs1).config = (load s fs2).config := by
  cases ht : s.toml_data with
  | none => simp [load, ht]
  | some t =>
    simp only [load, ht]
    by_cases he : s.env_loaded = true
    · rw [if_pos he, if_pos he]
      rw [envFold_fst_congr s.environ (flattenToml t) fs1 fs2 hc hh]
    · rw [if_neg he, if_neg he]

/-! ### Concrete fixtures -/

/-- A development filesystem: working directory `/w`, home `/root`, nothing
else. -/
def fs0 : FS := { cwd := "/w", home := "/root", dirs := [], files := [] }

/-- A setup whose TOML base file was absent. -/
def setupNoToml : Setup :=
  { toml_data := none, toml_path := "/w/config.toml", env_loaded := false,
    environ := [], is_dev := true }

/-- A setup whose base flattens to the key `IS_DEV_MODE` while the overlay
also carries `IS_DEV_MODE`. -/
def setupOverlayClash : Setup :=
  { toml_data := some [("is", [("dev_mode", Value.str "base")])],
    toml_path := "/w/config.toml", env_loaded := true,
    environ := [("IS_DEV_MODE", "no")], is_dev := true }

/-- A setup with one base key and one overriding overlay entry. -/
def setupOverlayOk : Setup :=
  { toml_data := some [("app", [("name", Value.str "Tmpl")])],
    toml_path := "/w/config.toml", env_loaded := true,
    environ := [("APP_NAME", "42")], is_dev := true }

/-- A setup whose single overlay entry fails to cast. -/
def setupCastFail : Setup :=
  { toml_data := some [("app", [("name", Value.str "Tmpl")])],
    toml_path := "/w/config.toml", env_loaded := true,
    environ := [("LOG_LEVEL", "bogus")], is_dev := true }

/-! ### Claim C1 -/

/-- C1 (counterexample): with no TOML data loaded, `load` returns a mapping
with zero keys — in particular `IS_DEV_MODE` is absent — refuting the claim
that the returned mapping has exactly one key `IS_DEV_MODE`. -/
theorem C1_counterexample :
    (load setupNoToml fs0).config = [] ∧
      alookup (load setupNoToml fs0).config "IS_DEV_MODE" = none :=
  ⟨rfl, rfl⟩

/-- C1 (amended): if the structured base configuration file is absent,
resolution reports an error and returns a completely empty mapping — no keys
at all; the `IS_DEV_MODE` meta-flag is not added on this early-return path —
and the filesystem is untouched. -/
theorem C1_missing_base_yields_empty (s : Setup) (fs : FS) (h : s.toml_data = none) :
    (load s fs).config = [] ∧ (load s fs).fs = fs ∧
      (load s fs).logs =
        [LogEvent.errorEv ("Failed to load TOML configuration from " ++ s.toml_path)] := by
  simp [load, h]

/-- Witness for C1: the amended statement evaluated at the concrete fixture. -/
theorem C1_missing_base_yields_empty_witness :
    (load setupNoToml fs0).config = [] ∧ (load setupNoToml fs0).fs = fs0 ∧
      (load setupNoToml fs0).logs =
        [LogEvent.errorEv ("Failed to load TOML configuration from " ++ "/w/config.toml")] :=
  C1_missing_base_yields_empty setupNoToml fs0 rfl

/-! ### Claim C2 -/

/-- C2 (counterexample): the key `IS_DEV_MODE` is present in the flattened
base (section `is`, key `dev_mode`), present upper-case in the overlay with a
value that casts to `false`, yet the resolved value is the meta-flag `true` —
the overlay does not take precedence for this key, because `IS_DEV_MODE` is
written after the merge. -/
theorem C2_counterexample :
    alookup (flattenToml [("is", [("dev_mode", Value.str "base")])]) "IS_DEV_MODE" =
        some (Value.str "base") ∧
      pyIsUpper "IS_DEV_MODE" = true ∧
      auto_cast fs0 "IS_DEV_MODE" "no" = .ok (Value.bool false, fs0) ∧
      alookup (load setupOverlayClash fs0).config "IS_DEV_MODE" =
        some (Value.bool true) ∧
      Value.bool true ≠ Value.bool false :=
  ⟨rfl, rfl, rfl, rfl, by decide⟩

/-- C2 (amended): for every key other than `IS_DEV_MODE` that is present in
the flattened base configuration and, as a fully upper-case environment
variable, in the development-mode overlay, the resolved value equals the cast
overlay value, never the base value.  (`IS_DEV_MODE` itself is unconditionally
overwritten with the development-mode flag after the merge.) -/
theorem C2_overlay_precedence (s : Setup) (fs fs2 : FS) (t : Toml)
    (key value : String) (v : Value)
    (htoml : s.toml_data = some t)
    (henv : s.env_loaded = true)
    (hmem : (key, value) ∈ s.environ)
    (hnodup : (s.environ.map Prod.fst).Nodup)
    (hupper : pyIsUpper key = true)
    (hbase : alookup (flattenToml t) key ≠ none)
    (hkey : key ≠ "IS_DEV_MODE")
    (hcast : auto_cast fs key value = .ok (v, fs2)) :
    alookup (load s fs).config key = some v := by
  simp only [load, htoml]
  rw [if_pos henv]
  rw [alookup_dinsert_ne _ _ _ _ hkey]
  rw [envFold_lookup_mem s.environ (flattenToml t, fs) key value hnodup hmem hupper]
  simp [castOrRaw, hcast]

/-- Witness for C2: the amended statement evaluated at the concrete fixture,
where the base value for `APP_NAME` is a string and the overlay value `42`
casts to the integer `42`. -/
theorem C2_overlay_precedence_witness :
    alookup (load setupOverlayOk fs0).config "APP_NAME" = some (Value.int 42) :=
  C2_overlay_precedence setupOverlayOk fs0 fs0 [("app", [("name", Value.str "Tmpl")])]
    "APP_NAME" "42" (Value.int 42) rfl rfl (by simp [setupOverlayOk])
    (by simp [setupOverlayOk]) rfl (by decide) (by decide) rfl

/-! ### Claim C5 -/

/-- C5: for every key other than `LOG_LEVEL` and `THEME_MODE`, casting tries
the boolean tokens before the positive-integer parse: `On`, `1`, `yes` cast to
`true`; `off`, `0`, `no` cast to `false`; `42` casts to the integer `42`; and
every string that is neither a boolean token nor a strictly positive integer
falls through to the later path/string steps, which never fail. -/
theorem C5_cast_order (fs : FS) (key : String)
    (h1 : key ≠ "LOG_LEVEL") (h2 : key ≠ "THEME_MODE") :
    auto_cast fs key "On" = .ok (Value.bool true, fs) ∧
    auto_cast fs key "1" = .ok (Value.bool true, fs) ∧
    auto_cast fs key "yes" = .ok (Value.bool true, fs) ∧
    auto_cast fs key "off" = .ok (Value.bool false, fs) ∧
    auto_cast fs key "0" = .ok (Value.bool false, fs) ∧
    auto_cast fs key "no" = .ok (Value.bool false, fs) ∧
    auto_cast fs key "42" = .ok (Value.int 42, fs) ∧
    (∀ value : String,
      strListHas trueTokens (pyLower value) = false →
      strListHas falseTokens (pyLower value) = false →
      (∀ n : Int, pyIntOfString value = some n → n ≤ 0) →
      auto_cast fs key value = castTail fs key value ∧
        (castTail fs key value).isOk = true) := by
  have hred : ∀ value : String, auto_cast fs key value =
      (match ensure_boolean value key with
       | .ok b => Except.ok (Value.bool b, fs)
       | .error _ =>
         match ensure_positive_int value key with
         | .ok n => Except.ok (Value.int n, fs)
         | .error _ => castTail fs key value) := by
    intro value
    simp only [auto_cast, if_neg h1, if_neg h2]
  refine ⟨by rw [hred]; rfl, by rw [hred]; rfl, by rw [hred]; rfl, by rw [hred]; rfl,
    by rw [hred]; rfl, by rw [hred]; rfl, by rw [hred]; rfl, ?_⟩
  intro value hb1 hb2 hi
  have hbe : ensure_boolean value key = .error ("Invalid " ++ key ++ ": " ++ value) := by
    simp [ensure_boolean, hb1, hb2]
  have hie : ∃ em, ensure_positive_int value key = .error em := by
    cases hio : pyIntOfString value with
    | none =>
      exact ⟨"Invalid " ++ key ++ ": " ++ value, by simp [ensure_positive_int, hio]⟩
    | some n =>
      have hn := hi n hio
      exact ⟨"Invalid " ++ key ++ ": " ++ value, by
        simp only [ensure_positive_int, hio]
        rw [if_neg (by omega)]⟩
  obtain ⟨em, hie⟩ := hie
  constructor
  · rw [hred value, hbe, hie]
  · exact castTail_isOk fs key value

/-- Witness for C5: the statement evaluated at a concrete key and a concrete
fall-through string. -/
theorem C5_cast_order_witness :
    auto_cast fs0 "X" "On" = .ok (Value.bool true, fs0) ∧
      auto_cast fs0 "X" "hello" = castTail fs0 "X" "hello" ∧
      (castTail fs0 "X" "hello").isOk = true := by
  have h := C5_cast_order fs0 "X" (by decide) (by decide)
  have h8 := h.2.2.2.2.2.2.2 "hello" (by decide) (by decide)
    (fun n hn => by
      have hnone : pyIntOfString "hello" = none := by decide
      rw [hnone] at hn
      cases hn)
  exact ⟨h.1, h8.1, h8.2⟩

/-! ### Claim C7 -/

/-- C7: the instrumented read `safeGet` never raises (it is a total function)
and has exactly three outcomes: a present key returns the stored value with a
`Hit`; an absent key with no default returns the `none` sentinel with an
`UnrecoverableMiss`, which carries the loudest severity; an absent key with a
default returns the default with a `DefaultedMiss` at warning severity. -/
theorem C7_safe_get_outcomes (m : List (String × Value)) (key : String) :
    (∀ v, alookup m key = some v → ∀ d, safeGet m key d = (some v, AccessOutcome.Hit)) ∧
    (alookup m key = none →
      safeGet m key none = (none, AccessOutcome.UnrecoverableMiss) ∧
      ∀ dv, safeGet m key (some dv) = (some dv, AccessOutcome.DefaultedMiss)) ∧
    (∀ o, severityLevel (outcomeSeverity o) ≤
        severityLevel (outcomeSeverity AccessOutcome.UnrecoverableMiss)) ∧
    outcomeSeverity AccessOutcome.DefaultedMiss = Severity.warningSev := by
  refine ⟨?_, ?_, ?_, rfl⟩
  · intro v hv d
    simp [safeGet, hv]
  · intro hn
    exact ⟨by simp [safeGet, hn], fun dv => by simp [safeGet, hn]⟩
  · intro o
    cases o <;> decide

/-- A sample configuration with a single stored key. -/
def mSafe : List (String × Value) := [("SET_KEY", Value.str "stored")]

/-- Witness for C7: the three outcomes evaluated on a concrete mapping. -/
theorem C7_safe_get_outcomes_witness :
    safeGet mSafe "SET_KEY" none = (some (Value.str "stored"), AccessOutcome.Hit) ∧
      safeGet mSafe "UNSET_KEY" none = (none, AccessOutcome.UnrecoverableMiss) ∧
      safeGet mSafe "UNSET_KEY" (some (Value.str "fallback")) =
        (some (Value.str "fallback"), AccessOutcome.DefaultedMiss) := by
  have h1 := (C7_safe_get_outcomes mSafe "SET_KEY").1 (Value.str "stored") rfl none
  have h2 := (C7_safe_get_outcomes mSafe "UNSET_KEY").2.1 rfl
  exact ⟨h1, h2.1, h2.2 (Value.str "fallback")⟩

/-! ### Claim C8 -/

/-- C8: when the cast of an overlay entry fails, the raw string value is
retained in the resolved mapping under that key, and loading still runs to
completion — in particular the final `IS_DEV_MODE` flag is present. -/
theorem C8_cast_failure_retains_raw (s : Setup) (fs : FS) (t : Toml)
    (key value em : String)
    (htoml : s.toml_data = some t) (henv : s.env_loaded = true)
    (hmem : (key, value) ∈ s.environ)
    (hnodup : (s.environ.map Prod.fst).Nodup)
    (hupper : pyIsUpper key = true)
    (hfail : auto_cast fs key value = .error em) :
    alookup (load s fs).config key = some (Value.str value) ∧
      alookup (load s fs).config "IS_DEV_MODE" = some (Value.bool s.is_dev) := by
  have hkey : key ≠ "IS_DEV_MODE" := by
    rcases auto_cast_error_key fs key value em hfail with h | h <;> (rw [h]; decide)
  constructor
  · simp only [load, htoml]
    rw [if_pos henv]
    rw [alookup_dinsert_ne _ _ _ _ hkey]
    rw [envFold_lookup_mem s.environ (flattenToml t, fs) key value hnodup hmem hupper]
    simp [castOrRaw, hfail]
  · simp only [load, htoml]
    exact alookup_dinsert_self _ _ _

/-- Witness for C8: a failing `LOG_LEVEL` cast retains the raw string. -/
theorem C8_cast_failure_retains_raw_witness :
    alookup (load setupCastFail fs0).config "LOG_LEVEL" = some (Value.str "bogus") ∧
      alookup (load setupCastFail fs0).config "IS_DEV_MODE" = some (Value.bool true) :=
  C8_cast_failure_retains_raw setupCastFail fs0 [("app", [("name", Value.str "Tmpl")])]
    "LOG_LEVEL" "bogus" ("Invalid log level: " ++ "bogus") rfl rfl
    (by simp [setupCastFail]) (by simp [setupCastFail]) rfl rfl

/-! ### Claim C9 -/

/-- C9: resolution is idempotent — running `load` a second time, from the same
setup and from the filesystem state left by the first run, yields an equal
configuration mapping, because cast results never depend on the directories
created by earlier casts. -/
theorem C9_resolution_idempotent (s : Setup) (fs : FS) :
    (load s ((load s fs).fs)).config = (load s fs).config := by
  have h := load_fsext s fs
  exact load_config_fs_congr s ((load s fs).fs) fs h.1 h.2.1

/-! ### Claim C6 -/

theorem ensure_boolean_fails (key value : String)
    (hb1 : strListHas trueTokens (pyLower value) = false)
    (hb2 : strListHas falseTokens (pyLower value) = false) :
    ensure_boolean value key = .error ("Invalid " ++ key ++ ": " ++ value) := by
  simp [ensure_boolean, hb1, hb2]

theorem ensure_positive_int_fails (key value : String)
    (hi : ∀ n : Int, pyIntOfString value = some n → n ≤ 0) :
    ensure_positive_int value key = .error ("Invalid " ++ key ++ ": " ++ value) := by
  cases hio : pyIntOfString value with
  | none => simp [ensure_positive_int, hio]
  | some n =>
    have hn := hi n hio
    simp only [ensure_positive_int, hio]
    rw [if_neg (by omega)]

theorem auto_cast_to_castTail (fs : FS) (key value : String)
    (h1 : key ≠ "LOG_LEVEL") (h2 : key ≠ "THEME_MODE")
    (hb1 : strListHas trueTokens (pyLower value) = false)
    (hb2 : strListHas falseTokens (pyLower value) = false)
    (hi : ∀ n : Int, pyIntOfString value = some n → n ≤ 0) :
    auto_cast fs key value = castTail fs key value := by
  simp only [auto_cast, if_neg h1, if_neg h2, ensure_boolean_fails key value hb1 hb2,
    ensure_positive_int_fails key value hi]

theorem validate_directory_path_exists (fs : FS) (p : String) :
    ((validate_directory_path fs p true).2).existsPath (pyPathStr p) = true := by
  simp only [validate_directory_path]
  split
  · simp only [FS.mkdirs, FS.existsPath, FS.rawExists]
    simp [strListHas]
  · rename_i hcond
    simp only [Bool.true_and] at hcond
    simp only [FS.existsPath] at hcond ⊢
    simpa using hcond

/-- C6: for every key containing the substring `PATH`, `DIR` or `FILE` whose
value is neither a boolean token nor a positive integer (and which is not one
of the two special keys), the value is expanded to an absolute, user-expanded
path.  A path with a file extension is treated as a file path: nothing is
created and the filesystem is returned untouched.  A path without an
extension is treated as a directory path: the cast goes through
`validate_directory_path` with creation enabled, after which the directory
exists. -/
theorem C6_path_key_heuristic (fs : FS) (key value : String)
    (h1 : key ≠ "LOG_LEVEL") (h2 : key ≠ "THEME_MODE")
    (hpk : pathKeySub key = true)
    (hb1 : strListHas trueTokens (pyLower value) = false)
    (hb2 : strListHas falseTokens (pyLower value) = false)
    (hi : ∀ n : Int, pyIntOfString value = some n → n ≤ 0)
    (hcwd : isAbs fs.cwd = true) :
    isAbs (pyPathStr (pyResolve fs.cwd (pyExpanduser fs.home value))) = true ∧
    (pySuffix (pyResolve fs.cwd (pyExpanduser fs.home value)) ≠ "" →
      auto_cast fs key value =
        .ok (Value.str (pyPathStr (pyResolve fs.cwd (pyExpanduser fs.home value))), fs)) ∧
    (pySuffix (pyResolve fs.cwd (pyExpanduser fs.home value)) = "" →
      auto_cast fs key value =
        .ok (Value.str (pyPathStr (pyResolve fs.cwd (pyExpanduser fs.home value))),
          (validate_directory_path fs (pyResolve fs.cwd (pyExpanduser fs.home value)) true).2) ∧
      ((validate_directory_path fs (pyResolve fs.cwd (pyExpanduser fs.home value))
          true).2).existsPath
        (pyPathStr (pyResolve fs.cwd (pyExpanduser fs.home value))) = true) := by
  have hact : auto_cast fs key value = castTail fs key value :=
    auto_cast_to_castTail fs key value h1 h2 hb1 hb2 hi
  refine ⟨isAbs_pyPathStr _ (isAbs_pyResolve _ _ hcwd), ?_, ?_⟩
  · intro hs
    rw [hact]
    simp only [castTail]
    rw [if_pos hpk, if_neg hs, validate_file_path_nomust]
    rfl
  · intro hs
    constructor
    · rw [hact]
      simp only [castTail]
      rw [if_pos hpk, if_pos hs, validate_directory_path_fst]
    · exact validate_directory_path_exists fs (pyResolve fs.cwd (pyExpanduser fs.home value))

/-- Witness for C6: `LOG_DIR` with value `/tmp/x` (no extension) resolves to
the absolute directory `/tmp/x`, and the cast creates the directory. -/
theorem C6_path_key_heuristic_witness :
    isAbs (pyPathStr (pyResolve fs0.cwd (pyExpanduser fs0.home "/tmp/x"))) = true ∧
      auto_cast fs0 "LOG_DIR" "/tmp/x" =
        .ok (Value.str (pyPathStr (pyResolve fs0.cwd (pyExpanduser fs0.home "/tmp/x"))),
          (validate_directory_path fs0 (pyResolve fs0.cwd (pyExpanduser fs0.home "/tmp/x"))
            true).2) ∧
      ((validate_directory_path fs0 (pyResolve fs0.cwd (pyExpanduser fs0.home "/tmp/x"))
          true).2).existsPath
        (pyPathStr (pyResolve fs0.cwd (pyExpanduser fs0.home "/tmp/x"))) = true := by
  have h := C6_path_key_heuristic fs0 "LOG_DIR" "/tmp/x" (by decide) (by decide) (by decide)
    (by decide) (by decide)
    (fun n hn => by
      have hnone : pyIntOfString "/tmp/x" = none := by decide
      rw [hnone] at hn
      cases hn)
    (by decide)
  have h3 := h.2.2 (by decide)
  exact ⟨h.1, h3.1, h3.2⟩

/-! ### Claim C3 -/

theorem pyJoin_abs (a b : String) (h : isAbs b = true) : pyJoin a b = b := by
  simp [pyJoin, h]

/-- A filesystem holding one file `/w/x` under the working directory `/w`. -/
def fsC3 : FS := { cwd := "/w", home := "/root", dirs := [], files := ["/w/x"] }

/-- A filesystem with a category directory `/w/icons` holding one icon. -/
def fsIcons : FS :=
  { cwd := "/w", home := "/root", dirs := ["/w/icons"], files := ["/w/icons/a.png"] }

/-- C3 (counterexample): the relative path `x` names an existing file, but the
lookup returns the absolutized path `/w/x`, not the argument verbatim. -/
theorem C3_counterexample :
    fsC3.existsPath "x" = true ∧
      get_in fsC3 false "/m" "/w/icons" "x" = .ok "/w/x" ∧
      "/w/x" ≠ "x" :=
  ⟨rfl, rfl, by decide⟩

/-- C3 (amended): per-category lookup tries exactly the claimed order — (1) an
argument that is itself an existing path is returned absolutized via
`os.path.abspath` (hence verbatim when it is an absolute normalized path, even
if it lies outside the category directory); (2) otherwise the argument joined
to the category base directory is tried; (3) in packaged execution only, the
argument joined to the fixed packaged resources base is tried; and the lookup
fails if and only if all applicable steps miss. -/
theorem C3_lookup_order (fs : FS) (isBundled : Bool) (meipass basePath path : String) :
    (fs.existsPath path = true →
      get_in fs isBundled meipass basePath path = .ok (pyAbspath fs.cwd path)) ∧
    (fs.existsPath path = true → isAbs path = true → pyNormpath path = path →
      get_in fs isBundled meipass basePath path = .ok path) ∧
    (fs.existsPath path = false → fs.existsPath (pyJoin basePath path) = true →
      get_in fs isBundled meipass basePath path =
        .ok (pyAbspath fs.cwd (pyJoin basePath path))) ∧
    (fs.existsPath path = false → fs.existsPath (pyJoin basePath path) = false →
      isBundled = true →
      fs.existsPath (pyJoin (getBasePath true meipass fs.cwd) path) = true →
      get_in fs isBundled meipass basePath path =
        .ok (pyAbspath fs.cwd (pyJoin (getBasePath true meipass fs.cwd) path))) ∧
    ((∃ em, get_in fs isBundled meipass basePath path = .error em) ↔
      (fs.existsPath path = false ∧ fs.existsPath (pyJoin basePath path) = false ∧
        (isBundled = true →
          fs.existsPath (pyJoin (getBasePath true meipass fs.cwd) path) = false))) := by
  refine ⟨?_, ?_, ?_, ?_, ?_, ?_⟩
  · intro h
    simp only [get_in]
    rw [if_pos h]
  · intro h ha hn
    simp only [get_in]
    rw [if_pos h]
    simp only [pyAbspath]
    rw [pyJoin_abs _ _ ha, hn]
  · intro h1 h2
    simp only [get_in]
    rw [if_neg (by simp [h1]), if_pos h2]
  · intro h1 h2 hb h3
    simp only [get_in]
    rw [if_neg (by simp [h1]), if_neg (by simp [h2]), if_pos (by simp [hb, h3])]
  · rintro ⟨em, he⟩
    simp only [get_in] at he
    by_cases e1 : fs.existsPath path = true
    · rw [if_pos e1] at he
      simp at he
    · rw [if_neg e1] at he
      by_cases e2 : fs.existsPath (pyJoin basePath path) = true
      · rw [if_pos e2] at he
        simp at he
      · rw [if_neg e2] at he
        refine ⟨by simpa using e1, by simpa using e2, ?_⟩
        intro hb
        by_cases e3 : fs.existsPath (pyJoin (getBasePath true meipass fs.cwd) path) = true
        · rw [hb] at he
          simp only [Bool.true_and] at he
          rw [if_pos e3] at he
          simp at he
        · simpa using e3
  · rintro ⟨h1, h2, h3⟩
    simp only [get_in]
    rw [if_neg (by simp [h1]), if_neg (by simp [h2])]
    cases hb : isBundled with
    | true =>
      rw [if_neg (by simp [hb, h3 hb])]
      exact ⟨_, rfl⟩
    | false =>
      rw [if_neg (by simp)]
      exact ⟨_, rfl⟩

/-- Witness for C3: an absolute existing path returns verbatim, a bare
filename resolves through the category directory, and a missing filename
fails. -/
theorem C3_lookup_order_witness :
    get_in fsIcons false "/m" "/w/icons" "/w/icons/a.png" = .ok "/w/icons/a.png" ∧
      get_in fsIcons false "/m" "/w/icons" "a.png" = .ok "/w/icons/a.png" ∧
      (∃ em, get_in fsIcons false "/m" "/w/icons" "missing.png" = .error em) := by
  have h1 := (C3_lookup_order fsIcons false "/m" "/w/icons" "/w/icons/a.png").2.1 rfl rfl rfl
  have h2 := (C3_lookup_order fsIcons false "/m" "/w/icons" "a.png").2.2.1 rfl rfl
  have h3 := (C3_lookup_order fsIcons false "/m" "/w/icons" "missing.png").2.2.2.2.mpr
    ⟨rfl, rfl, fun hb => Bool.noConfusion hb⟩
  exact ⟨h1, h2, h3⟩

/-! ### Claim C4 -/

theorem FSext_existsPath {fs fsq : FS} (h : FSext fs fsq) (p : String)
    (he : fs.existsPath p = true) : fsq.existsPath p = true := by
  simp only [FS.existsPath, FS.rawExists] at he ⊢
  rw [h.1, h.2.2.1]
  rcases Bool.or_eq_true_iff.mp he with hd | hf
  · simp [h.2.2.2 _ hd]
  · simp [hf]

theorem initFold_attrs_not_mem (cfg : List (String × String)) (isBundled : Bool)
    (bp : String) (st : ResState) (k : String) (h : ∀ p ∈ cfg, p.1 ≠ k) :
    alookup ((cfg.foldl (initStep isBundled bp) st)).attrs k = alookup st.attrs k := by
  induction cfg generalizing st with
  | nil => rfl
  | cons kv t ih =>
    simp only [List.foldl_cons]
    rw [ih (initStep isBundled bp st kv) (fun p hp => h p (List.mem_cons_of_mem kv hp))]
    have hne : k ≠ kv.1 := Ne.symm (h kv (List.mem_cons_self kv t))
    simp only [initStep]
    by_cases hb : kv.1 = "base"
    · rw [if_pos hb]
      exact alookup_dinsert_ne st.attrs kv.1 k _ hne
    · rw [if_neg hb]
      exact alookup_dinsert_ne st.attrs kv.1 k _ hne

theorem initFold_attrs_mem (cfg : List (String × String)) (isBundled : Bool)
    (bp : String) (st : ResState) (k d : String)
    (hnd : (cfg.map Prod.fst).Nodup) (hmem : (k, d) ∈ cfg) (hbase : k ≠ "base") :
    alookup ((cfg.foldl (initStep isBundled bp) st)).attrs k =
      some (if isBundled then pathDiv bp k
            else if isAbs d = true then pyPathStr d else pathDiv bp (pyName d)) := by
  induction cfg generalizing st with
  | nil => cases hmem
  | cons kv t ih =>
    simp only [List.foldl_cons]
    rw [List.map_cons] at hnd
    have hpair := List.nodup_cons.mp hnd
    rcases List.mem_cons.mp hmem with heq | hmemt
    · obtain rfl : kv = (k, d) := heq.symm
      have hk : ∀ p ∈ t, p.1 ≠ k := by
        intro p hp hpk
        have hmmem : p.1 ∈ t.map Prod.fst := List.mem_map_of_mem Prod.fst hp
        rw [hpk] at hmmem
        exact hpair.1 hmmem
      rw [initFold_attrs_not_mem t isBundled bp _ k hk]
      simp only [initStep]
      rw [if_neg hbase]
      exact alookup_dinsert_self st.attrs k _
    · exact ih (initStep isBundled bp st kv) hpair.2 hmemt

theorem initStep_fs_bundled (bp : String) (st : ResState) (kv : String × String) :
    (initStep true bp st kv).fs = st.fs := by
  simp only [initStep]
  split <;> rfl

theorem initFold_fs_bundled (cfg : List (String × String)) (bp : String) (st : ResState) :
    ((cfg.foldl (initStep true bp) st)).fs = st.fs := by
  induction cfg generalizing st with
  | nil => rfl
  | cons kv t ih =>
    simp only [List.foldl_cons]
    rw [ih (initStep true bp st kv)]
    exact initStep_fs_bundled bp st kv

theorem initStep_fsext_dev (bp : String) (st : ResState) (kv : String × String) :
    FSext st.fs (initStep false bp st kv).fs := by
  simp only [initStep]
  split
  · exact FSext_refl st.fs
  · split
    · exact FSext_refl st.fs
    · split
      · split
        · exact FSext_refl st.fs
        · exact FSext_mkdirs st.fs _
      · split
        · exact FSext_refl st.fs
        · exact FSext_mkdirs st.fs _

theorem initFold_fsext_dev (cfg : List (String × String)) (bp : String) (st : ResState) :
    FSext st.fs ((cfg.foldl (initStep false bp) st)).fs := by
  induction cfg generalizing st with
  | nil => exact FSext_refl _
  | cons kv t ih =>
    simp only [List.foldl_cons]
    exact FSext_trans (initStep_fsext_dev bp st kv) (ih (initStep false bp st kv))

theorem initFold_dev_creates (cfg : List (String × String)) (bp : String) (st : ResState)
    (k d : String) (hnd : (cfg.map Prod.fst).Nodup) (hmem : (k, d) ∈ cfg)
    (hbase : k ≠ "base") :
    ((cfg.foldl (initStep false bp) st)).fs.existsPath
      (if isAbs d = true then pyPathStr d else pathDiv bp (pyName d)) = true := by
  induction cfg generalizing st with
  | nil => cases hmem
  | cons kv t ih =>
    simp only [List.foldl_cons]
    rw [List.map_cons] at hnd
    have hpair := List.nodup_cons.mp hnd
    rcases List.mem_cons.mp hmem with heq | hmemt
    · obtain rfl : kv = (k, d) := heq.symm
      apply FSext_existsPath (initFold_fsext_dev t bp (initStep false bp st (k, d)))
      simp only [initStep]
      rw [if_neg hbase]
      simp only [if_neg Bool.false_ne_true]
      by_cases he : st.fs.existsPath
          (if isAbs d = true then pyPathStr d else pathDiv bp (pyName d)) = true
      · rw [if_pos he]
        exact he
      · rw [if_neg he]
        simp [FS.mkdirs, FS.existsPath, FS.rawExists, strListHas]
    · exact ih (initStep false bp st kv) hpair.2 hmemt

/-- C4: for every declared resource category other than the reserved `base`
key: in packaged execution the resolved directory attribute is always the
packaged resources base joined with the category name — irrespective of the
declared path — and the filesystem is never touched; in development execution
the attribute is the declared path when absolute and otherwise the working
directory's `resources` base joined with the basename of the declared path,
the directory exists afterwards (created if missing), and the working
directory and files are unchanged. -/
theorem C4_category_dirs (meipass : String) (cfg : List (String × String)) (fs : FS)
    (key declared : String)
    (hmem : (key, declared) ∈ cfg)
    (hnodup : (cfg.map Prod.fst).Nodup)
    (hbase : key ≠ "base") :
    (alookup (initResources true meipass cfg fs).attrs key =
        some (pathDiv (getBasePath true meipass fs.cwd) key) ∧
      (initResources true meipass cfg fs).fs = fs) ∧
    (alookup (initResources false meipass cfg fs).attrs key =
        some (if isAbs declared = true then pyPathStr declared
              else pathDiv (getBasePath false meipass fs.cwd) (pyName declared)) ∧
      (initResources false meipass cfg fs).fs.existsPath
        (if isAbs declared = true then pyPathStr declared
         else pathDiv (getBasePath false meipass fs.cwd) (pyName declared)) = true ∧
      (initResources false meipass cfg fs).fs.cwd = fs.cwd ∧
      (initResources false meipass cfg fs).fs.files = fs.files) := by
  have hdev := initFold_fsext_dev cfg (getBasePath false meipass fs.cwd)
    { attrs := [], resources := [], fs := fs }
  refine ⟨⟨?_, ?_⟩, ⟨?_, ?_, hdev.1, hdev.2.2.1⟩⟩
  · exact initFold_attrs_mem cfg true (getBasePath true meipass fs.cwd) _ key declared
      hnodup hmem hbase
  · exact initFold_fs_bundled cfg (getBasePath true meipass fs.cwd) _
  · exact initFold_attrs_mem cfg false (getBasePath false meipass fs.cwd) _ key declared
      hnodup hmem hbase
  · exact initFold_dev_creates cfg (getBasePath false meipass fs.cwd) _ key declared
      hnodup hmem hbase

/-- Witness for C4: the category `icons` declared as `resources/icons`
resolves to `/m/resources/icons` when packaged (filesystem untouched) and to
`/w/resources/icons` in development (directory created). -/
theorem C4_category_dirs_witness :
    alookup (initResources true "/m" [("icons", "resources/icons")] fs0).attrs "icons" =
        some "/m/resources/icons" ∧
      (initResources true "/m" [("icons", "resources/icons")] fs0).fs = fs0 ∧
      alookup (initResources false "/m" [("icons", "resources/icons")] fs0).attrs "icons" =
        some "/w/resources/icons" ∧
      (initResources false "/m" [("icons", "resources/icons")] fs0).fs.existsPath
        "/w/resources/icons" = true := by
  have h := C4_category_dirs "/m" [("icons", "resources/icons")] fs0 "icons"
    "resources/icons" (by simp) (by simp) (by decide)
  exact ⟨h.1.1, h.1.2, h.2.1, h.2.2.1⟩

/-! ### Claim C10 -/

/-- C10: in packaged (non-development) execution, when the base file enables
`logging.persistence_logging` but defines no `app.name` key, the
logging-configuration side effect assigns `None` to
`PERSISTENCE_LOGGING_TARGET_NAME`, which `os.environ` rejects with a
`TypeError`, aborting startup. -/
theorem C10_missing_app_name_aborts (t : Toml) (env : List (String × String))
    (hpl : alookup (tomlGetSection t "logging") "persistence_logging" =
      some (Value.bool true))
    (hname : alookup (tomlGetSection t "app") "name" = none) :
    initEnvSetup false (some t) env =
        .error "TypeError: str expected, not NoneType" ∧
      configure_logging_from_toml (some t) env =
        .error "TypeError: str expected, not NoneType" := by
  have hc : configure_logging_from_toml (some t) env =
      .error "TypeError: str expected, not NoneType" := by
    simp only [configure_logging_from_toml, hpl, hname]
    rfl
  exact ⟨by simp only [initEnvSetup]; rw [if_neg (by simp)]; exact hc, hc⟩

/-- A TOML fixture enabling persistence logging with no `app` section. -/
def tomlNoAppName : Toml := [("logging", [("persistence_logging", Value.bool true)])]

/-- Witness for C10: the failing startup evaluated on a concrete TOML. -/
theorem C10_missing_app_name_aborts_witness :
    initEnvSetup false (some tomlNoAppName) [] =
        .error "TypeError: str expected, not NoneType" ∧
      configure_logging_from_toml (some tomlNoAppName) [] =
        .error "TypeError: str expected, not NoneType" :=
  C10_missing_app_name_aborts tomlNoAppName [] rfl rfl
